import Mathlib

/-!
Verification of the DDP cluster driver (RNS-E-Hudiy repository).

This file gives a shallow embedding, in Lean 4, of the DDP protocol engine
implemented in `src/dis_client/ddp_protocol.py` and of the presentation layer
in `src/dis_client/dis_service.py` / `src/dis_client/dis_handler.py`, and
proves properties of the embedded code.

Modelling conventions:
* Bytes are `Nat`s; the Python code never overflows a byte on the modelled
  paths (sequence numbers stay below 16 and type nibbles are added to them).
* CAN frames are `List Nat`.
* The effect of a run is a trace of `BusEvent`s: `send` for a call of
  `bus.send`, `sleep` for a `time.sleep` (in microseconds).  Receive-side
  pacing sleeps are not traced: the trace records outgoing activity.
* The environment (the frames the cluster will deliver on 0x6C1) is a list of
  frames, consumed in order; an exhausted environment models a receive
  timeout.  Stateful Python methods become functions from engine state and
  environment to a result, the new state, the unconsumed environment and the
  trace.
* Python exceptions (`DDPAckTimeoutError`) become an `ok : Bool` result flag,
  `False` standing for the raised exception, as the callers in the source
  only distinguish raised / not raised.
-/

namespace RNSE

set_option maxRecDepth 16000

/-- Connection states, from `class DDPState` in ddp_protocol.py. -/
inductive DDPState where
  | DISCONNECTED
  | SESSION_ACTIVE
  | INITIALIZING
  | READY
  | PAUSED
deriving DecidableEq

/-- Detected cluster type.  `UNKNOWN`, `WHITE`, `RED` are `class DisMode` of
ddp_protocol.py.  Modelled from the spec: the members `COLOR_TYPE1`,
`COLOR_TYPE2` and `MONO_HYBRID` of the spec's mode set (§3) are referenced by
dis_service.py (`DisMode.COLOR_TYPE1`, `_is_color_mode`) but the enum that
declares them is not among the repository files under src/; they are added
here so that dis_service.py's branches can be embedded faithfully. -/
inductive DisMode where
  | UNKNOWN
  | WHITE
  | RED
  | COLOR_TYPE1
  | COLOR_TYPE2
  | MONO_HYBRID
deriving DecidableEq

/-- One element of the outgoing-activity trace. -/
inductive BusEvent where
  | send (can_id : Nat) (data : List Nat)
  | sleep (us : Nat)
deriving DecidableEq

def CAN_ID_SEND : Nat := 0x6C0

/-- `CAN_PACING_DELAY_S = 0.002` (ddp_protocol.py line 86), in microseconds. -/
def CAN_PACING_DELAY_US : Nat := 2000

/-- The 20 ms inter-block pause of `send_ddp_frame` (White DIS), microseconds. -/
def INTER_BLOCK_DELAY_US : Nat := 20000

def KA_WHITE_OPEN : List Nat := [0xA0, 0x0F, 0x8A, 0xFF, 0x4A, 0xFF]
def KA_WHITE_ACCEPT : List Nat := [0xA1, 0x0F, 0x8A, 0xFF, 0x4A, 0xFF]
def KA_KEEP_PING : List Nat := [0xA3]
def KA_CLOSE : List Nat := [0xA8]
def KA_RED_PRESENT : List Nat := [0xA0, 0x07, 0x00]
def KA_RED_OPEN : List Nat := [0xA1, 0x0F]
def KA_RED_ACCEPT : List Nat := [0xA1, 0x0F]

def PKT_TYPE_MASK : Nat := 0xF0
def PKT_SEQ_MASK : Nat := 0x0F
def PKT_TYPE_DATA_END : Nat := 0x10
def PKT_TYPE_DATA_BODY : Nat := 0x20
def PKT_TYPE_ACK : Nat := 0xB0
def MAX_BYTES_PER_BLOCK : Nat := 42

def STAT_BUSY_HALF : List Nat := [0x53, 0x84]
def STAT_BUSY_WARN_HALF : List Nat := [0x53, 0x04]
def STAT_BUSY_FULL : List Nat := [0x53, 0x88]
def STAT_BUSY_WARN_FULL : List Nat := [0x53, 0x08]
def STAT_FREE_HALF : List Nat := [0x53, 0x05]
def STAT_FREE_FULL : List Nat := [0x53, 0x0A]
def CMD_REINIT_REQ : List Nat := [0x2E]
def CMD_REINIT_CONF : List Nat := [0x2F]

/-- The mutable state of `class DDPProtocol` (ddp_protocol.py) that the
modelled methods read or write.  `opcode_offset` — Modelled from the spec:
dis_service.py reads `self.ddp.opcode_offset` (spec §3, a rendering variant
parameter derived from the handshake) but no file under src/ assigns it; it
is carried here as an unconstrained field. -/
structure Engine where
  state : DDPState
  dis_mode : DisMode
  i_am_opener : Bool
  send_seq_num : Nat
  last_received_ack : Option (List Nat)
  opcode_offset : Nat
deriving DecidableEq

/-- `DDPProtocol._set_state`. -/
def set_state (e : Engine) (new_state : DDPState) : Engine :=
  if e.state = new_state then e
  else if new_state = DDPState.DISCONNECTED then
    { e with state := new_state, dis_mode := DisMode.UNKNOWN,
             i_am_opener := false, send_seq_num := 0 }
  else { e with state := new_state }

/-- `DDPProtocol.payload_is`: compare everything except the first byte. -/
def payload_is (data expected : List Nat) : Bool :=
  !data.isEmpty && data.tail == expected

def payload_is_opt (data : Option (List Nat)) (expected : List Nat) : Bool :=
  match data with
  | none => false
  | some d => payload_is d expected

/-- `DDPProtocol.send_can`: a bus send followed by the mandatory pacing sleep. -/
def send_can (can_id : Nat) (data : List Nat) : List BusEvent :=
  [BusEvent.send can_id data, BusEvent.sleep CAN_PACING_DELAY_US]

/-- `DDPProtocol.send_ack`: emit `0xB0 + (seq+1) mod 16`. -/
def send_ack (received_seq_num : Nat) : List BusEvent :=
  send_can CAN_ID_SEND [PKT_TYPE_ACK + (received_seq_num + 1) % 16]

/-- Result of `_handle_incoming_packet`: whether the packet was consumed as
background traffic, the engine afterwards, and what was sent in reply. -/
structure HandleResult where
  handled : Bool
  engine : Engine
  trace : List BusEvent
deriving DecidableEq

/-- `DDPProtocol._handle_incoming_packet`. -/
def handle_incoming_packet (e : Engine) (data : List Nat) : HandleResult :=
  match data with
  | [] => ⟨false, e, []⟩
  | b :: _ =>
    let pfx := b &&& PKT_TYPE_MASK
    if pfx = 0xA0 then
      if data = KA_CLOSE then
        ⟨true, set_state e DDPState.DISCONNECTED, []⟩
      else if data = KA_RED_PRESENT ∧ e.dis_mode = DisMode.RED ∧
                e.state = DDPState.READY then
        ⟨true, set_state e DDPState.DISCONNECTED, []⟩
      else if b = 0xA3 then
        let reply := if e.dis_mode = DisMode.RED then KA_RED_ACCEPT else KA_WHITE_ACCEPT
        ⟨true, e, send_can CAN_ID_SEND reply⟩
      else
        ⟨true, e, []⟩
    else if pfx = PKT_TYPE_ACK then
      ⟨true, { e with last_received_ack := some data }, []⟩
    else if pfx = 0x00 ∨ pfx = PKT_TYPE_DATA_END ∨ pfx = PKT_TYPE_DATA_BODY then
      ⟨false, e, []⟩
    else
      ⟨true, e, []⟩

/-- Result of a receive loop: the returned packet (or `none` for a timeout or
abort), the engine, the unconsumed environment and the trace. -/
structure RecvResult where
  result : Option (List Nat)
  engine : Engine
  env : List (List Nat)
  trace : List BusEvent
deriving DecidableEq

/-- `DDPProtocol._recv_specific`: wait for one exact frame, filtering
background traffic through `_handle_incoming_packet`; abort when the session
goes `DISCONNECTED`; an exhausted environment is the timeout. -/
def recv_specific (e : Engine) (expected : List Nat) :
    List (List Nat) → RecvResult
  | [] => ⟨none, e, [], []⟩
  | d :: rest =>
    if d = expected then ⟨some d, e, rest, []⟩
    else
      let h := handle_incoming_packet e d
      if h.engine.state = DDPState.DISCONNECTED then
        ⟨none, h.engine, rest, h.trace⟩
      else
        let r := recv_specific h.engine expected rest
        ⟨r.result, r.engine, r.env, h.trace ++ r.trace⟩

/-- `DDPProtocol._recv_and_ack_data`: wait for a data packet, ACK it when it
is a `0x0x`/`0x1x` packet, and return it. -/
def recv_and_ack_data (e : Engine) : List (List Nat) → RecvResult
  | [] => ⟨none, e, [], []⟩
  | d :: rest =>
    if d = [] then recv_and_ack_data e rest
    else
    let h := handle_incoming_packet e d
    if h.engine.state = DDPState.DISCONNECTED then
      ⟨none, h.engine, rest, h.trace⟩
    else if h.handled then
      let r := recv_and_ack_data h.engine rest
      ⟨r.result, r.engine, r.env, h.trace ++ r.trace⟩
    else
      let msg_type := d.headD 0 &&& PKT_TYPE_MASK
      let msg_seq := d.headD 0 &&& PKT_SEQ_MASK
      if msg_type = 0x00 ∨ msg_type = PKT_TYPE_DATA_END then
        ⟨some d, h.engine, rest, h.trace ++ send_ack msg_seq⟩
      else if msg_type = PKT_TYPE_DATA_BODY then
        ⟨some d, h.engine, rest, h.trace⟩
      else
        let r := recv_and_ack_data h.engine rest
        ⟨r.result, r.engine, r.env, h.trace ++ r.trace⟩

/-- Result of a send: `ok = false` models a raised `DDPAckTimeoutError`. -/
structure SendResult where
  ok : Bool
  engine : Engine
  env : List (List Nat)
  trace : List BusEvent
deriving DecidableEq

def pkt_type_byte (is_multi_packet_frame_body : Bool) : Nat :=
  if is_multi_packet_frame_body then PKT_TYPE_DATA_BODY else PKT_TYPE_DATA_END

/-- The ACK byte `send_data_packet` waits for: `0xB0 + (seq+1) % 16`. -/
def expected_ack_byte (seq : Nat) : Nat := PKT_TYPE_ACK + (seq + 1) % 16

/-- `DDPProtocol.send_data_packet` (ddp_protocol.py lines 318–341). -/
def send_data_packet (e : Engine) (data : List Nat)
    (is_multi_packet_frame_body : Bool) (env : List (List Nat)) : SendResult :=
  let first_byte := pkt_type_byte is_multi_packet_frame_body + e.send_seq_num
  let packet := first_byte :: data
  let tr0 := send_can CAN_ID_SEND packet
  let expected := expected_ack_byte e.send_seq_num
  let e1 := { e with send_seq_num := (e.send_seq_num + 1) % 16 }
  if is_multi_packet_frame_body then ⟨true, e1, env, tr0⟩
  else
    let r := recv_specific e1 [expected] env
    ⟨r.result.isSome, r.engine, r.env, tr0 ++ r.trace⟩

/-- Fuel-driven core of `chunkList`; the fuel is the list length. -/
def chunkGo (n : Nat) : Nat → List Nat → List (List Nat)
  | 0, _ => []
  | _ + 1, [] => []
  | fuel + 1, a :: as => (a :: as).take n :: chunkGo n fuel ((a :: as).drop n)

/-- Python slicing `[l[i:i+n] for i in range(0, len(l), n)]` for `n > 0`. -/
def chunkList (n : Nat) (l : List Nat) : List (List Nat) :=
  chunkGo n l.length l

/-- The body loop of `send_ddp_frame`: send each 7-byte chunk as a `0x2x`
packet (never waits, never fails). -/
def send_bodies (e : Engine) (env : List (List Nat)) :
    List (List Nat) → Engine × List (List Nat) × List BusEvent
  | [] => (e, env, [])
  | c :: cs =>
    let r := send_data_packet e c true env
    let rest := send_bodies r.engine r.env cs
    (rest.1, rest.2.1, r.trace ++ rest.2.2)

/-- The block loop of `send_ddp_frame`: for each block, send its 7-byte body
chunks as `0x2x` packets and the popped last chunk as the ACKed `0x1x` end
packet, then pause 20 ms on White DIS; a send failure aborts the loop. -/
def send_blocks (e : Engine) (env : List (List Nat)) :
    List (List Nat) → SendResult
  | [] => ⟨true, e, env, []⟩
  | block :: bs =>
    let chunks := chunkList 7 block
    if chunks = [] then send_blocks e env bs
    else
      let bodies := chunks.dropLast
      let lastChunk := chunks.getLastD []
      let rb := send_bodies e env bodies
      let re := send_data_packet rb.1 lastChunk false rb.2.1
      let pause : List BusEvent :=
        if re.engine.dis_mode = DisMode.WHITE then [BusEvent.sleep INTER_BLOCK_DELAY_US]
        else []
      if re.ok then
        let rs := send_blocks re.engine re.env bs
        ⟨rs.ok, rs.engine, rs.env, rb.2.2 ++ re.trace ++ pause ++ rs.trace⟩
      else ⟨false, re.engine, re.env, rb.2.2 ++ re.trace⟩

/-- `DDPProtocol.send_ddp_frame` (ddp_protocol.py lines 345–386). -/
def send_ddp_frame (e : Engine) (payload : List Nat)
    (env : List (List Nat)) : SendResult :=
  if e.state ≠ DDPState.READY then ⟨false, e, env, []⟩
  else if payload = [] then ⟨true, e, env, []⟩
  else
    let blocks := chunkList MAX_BYTES_PER_BLOCK payload
    let r := send_blocks e env blocks
    if r.ok then r
    else ⟨false, set_state r.engine DDPState.DISCONNECTED, r.env, r.trace⟩

/-- The `payload in [...]` busy-status test of `poll_bus_events`. -/
def is_busy_status (p : List Nat) : Bool :=
  p == STAT_BUSY_WARN_HALF || p == STAT_BUSY_HALF ||
  p == STAT_BUSY_WARN_FULL || p == STAT_BUSY_FULL

/-- The `payload in [...]` free-status test of `poll_bus_events`. -/
def is_free_status (p : List Nat) : Bool :=
  p == STAT_FREE_HALF || p == STAT_FREE_FULL

/-- `DDPProtocol.poll_bus_events` (ddp_protocol.py lines 719–778), for one
non-blocking read delivering `incoming`. -/
def poll_bus_events (e : Engine) (incoming : Option (List Nat)) :
    Engine × List BusEvent :=
  if e.state = DDPState.DISCONNECTED then (e, [])
  else
    match incoming with
    | none => (e, [])
    | some data =>
      if data = [] then (e, [])
      else
      let h := handle_incoming_packet e data
      if h.handled then (h.engine, h.trace)
      else
        let b := data.headD 0
        let msg_type := b &&& PKT_TYPE_MASK
        let msg_seq := b &&& PKT_SEQ_MASK
        let payload := data.tail
        let ackTr : List BusEvent :=
          if msg_type = 0x00 ∨ msg_type = PKT_TYPE_DATA_END then send_ack msg_seq
          else []
        let e1 := h.engine
        if is_busy_status payload then
          if e1.state ≠ DDPState.PAUSED then
            (set_state e1 DDPState.PAUSED, h.trace ++ ackTr ++ send_can CAN_ID_SEND KA_KEEP_PING)
          else (e1, h.trace ++ ackTr)
        else if is_free_status payload then
          (e1, h.trace ++ ackTr)
        else if payload = CMD_REINIT_REQ then
          let first_byte := PKT_TYPE_DATA_END + e1.send_seq_num
          let pkt := first_byte :: CMD_REINIT_CONF
          let e2 := { e1 with send_seq_num := (e1.send_seq_num + 1) % 16 }
          (set_state e2 DDPState.READY, h.trace ++ ackTr ++ send_can CAN_ID_SEND pkt)
        else (e1, h.trace ++ ackTr)

/-! ## Presentation layer (dis_service.py / dis_handler.py) -/

/-- The AUDSCII translation table (256 entries), from dis_handler.py lines
73–90.  dis_service.py imports the same table as `audscii_trans` from
icons.py. -/
def audscii_trans : List Nat := [
  0x00, 0x20, 0x20, 0x20, 0x20, 0x20, 0x20, 0x20, 0x20, 0x2F, 0x20, 0x20, 0x20, 0x20, 0x20, 0x20,
  0x20, 0x20, 0x20, 0x20, 0x20, 0x20, 0x20, 0x20, 0x20, 0x20, 0x20, 0x20, 0x1C, 0x20, 0x20, 0x20,
  0x20, 0x21, 0x22, 0x23, 0x24, 0x25, 0x26, 0x27, 0x28, 0x29, 0x2A, 0x2B, 0x2C, 0x2D, 0x2E, 0x2F,
  0x30, 0x31, 0x32, 0x33, 0x34, 0x35, 0x36, 0x37, 0x38, 0x39, 0x3A, 0x3B, 0x3C, 0x3D, 0x3E, 0x3F,
  0x40, 0x41, 0x42, 0x43, 0x44, 0x45, 0x46, 0x47, 0x48, 0x49, 0x4A, 0x4B, 0x4C, 0x4D, 0x4E, 0x4F,
  0x50, 0x51, 0x52, 0x53, 0x54, 0x55, 0x56, 0x57, 0x58, 0x59, 0x5A, 0x5B, 0x5C, 0x5D, 0x5E, 0x66,
  0x20, 0x01, 0x02, 0x03, 0x04, 0x05, 0x06, 0x07, 0x08, 0x09, 0x0A, 0x0B, 0x0C, 0x0D, 0x0E, 0x0F,
  0x10, 0x71, 0x72, 0x73, 0x74, 0x75, 0x76, 0x77, 0x78, 0x79, 0x7A, 0x7B, 0x7C, 0x7D, 0x7E, 0x20,
  0x20, 0x20, 0x20, 0x20, 0x20, 0x20, 0x20, 0x20, 0x20, 0x20, 0x20, 0x20, 0x20, 0x20, 0x20, 0x20,
  0x20, 0x20, 0x20, 0x20, 0x20, 0x20, 0x20, 0x20, 0x20, 0x20, 0x20, 0x20, 0x20, 0x20, 0x20, 0x20,
  0x20, 0x20, 0x20, 0x20, 0x20, 0x20, 0x20, 0x20, 0x20, 0xA2, 0xA0, 0x20, 0x20, 0x2D, 0x20, 0x7E,
  0x6B, 0xB4, 0xB2, 0xB3, 0x20, 0xB8, 0x20, 0x20, 0x20, 0xB1, 0xB0, 0x20, 0x20, 0x20, 0x20, 0xB9,
  0xC1, 0xC0, 0xD0, 0xE0, 0x5F, 0xE1, 0xE2, 0x8B, 0xC3, 0xC2, 0xD2, 0xD3, 0xC5, 0xC4, 0xD4, 0xD5,
  0xCE, 0x8A, 0xC7, 0xC6, 0xD6, 0xE6, 0x60, 0x20, 0xE7, 0xC9, 0xC8, 0xD8, 0x61, 0xE5, 0xE8, 0x8D,
  0x81, 0x80, 0x90, 0xF0, 0x91, 0xF1, 0xF2, 0x9B, 0x83, 0x82, 0x92, 0x93, 0x85, 0x84, 0x94, 0x95,
  0xEF, 0x9A, 0x87, 0x86, 0x96, 0xF6, 0x97, 0xBA, 0xF7, 0x89, 0x88, 0x98, 0x99, 0xF5, 0xF8, 0x20]

/-- `DDPProtocol.translate_to_audscii` (dis_handler.py line 475) and
`DisService._translate_audscii` (dis_service.py line 66): both compute
`[audscii_trans[ord(c) % 256] for c in text]`.  Characters are modelled by
their codepoints. -/
def translate_to_audscii (text : List Nat) : List Nat :=
  text.map (fun c => audscii_trans.getD (c % 256) 0)

def CHAR_WIDTH_MONO : Nat := 5
def LINE_WIDTH_MONO : Nat := 64
def LINE_HEIGHT_MONO : Nat := 9
def LINE_WIDTH_COLOR : Nat := 220

/-- The cache key of `DisService.write_text`.  The source computes
`hash((x, y, text, font, color, flags))`; the tuple itself is used here
(equal tuples have equal Python hashes, which is all the modelled claims
depend on). -/
structure CacheKey where
  x : Nat
  y : Nat
  text : List Nat
  font : Nat
  color : Nat
  flags : Nat
deriving DecidableEq

/-- One value of `line_cache`: the Python triple `(hash, len(text), is_inverted)`. -/
structure LineCacheEntry where
  key : CacheKey
  text_len : Nat
  is_inverted : Bool
deriving DecidableEq

/-- State of `class DisService` that the modelled methods touch. -/
structure Service where
  ddp : Engine
  screen_is_active : Bool
  line_cache : List (Nat × LineCacheEntry)
deriving DecidableEq

/-- `DisService._is_color_mode`. -/
def is_color_mode (e : Engine) : Bool :=
  e.dis_mode = DisMode.COLOR_TYPE1 ∨ e.dis_mode = DisMode.COLOR_TYPE2

/-- `DisService._pack_u16`. -/
def pack_u16 (val : Nat) : List Nat := [val &&& 0xFF, (val >>> 8) &&& 0xFF]

/-- The payloads `DisService.draw_rectangle` hands to `send_ddp_frame`. -/
def draw_rectangle_frames (e : Engine) (x y w h color_idx : Nat) :
    List (List Nat) :=
  if is_color_mode e then
    [[0x83, 0x09, color_idx] ++ pack_u16 x ++ pack_u16 y ++ pack_u16 w ++ pack_u16 h]
  else
    let abs_y := y + 0x1B
    if color_idx = 0 then
      [[0x52 + e.opcode_offset, 0x05, 0x02, x, abs_y, w, h],
       [0x52 + e.opcode_offset, 0x05, 0x00, 0x00, 0x1B, 0x40, 0x30]]
    else
      let orient := if w > h then 0x20 else 0x10
      let length := if w > h then w else h
      [[0x63 + e.opcode_offset, 0x04, orient, x, abs_y, length]]

/-- The drawing part of `DisService.write_text`, shared by the cache-miss and
cache-stale paths (`changed` is `True` on every path that reaches it). -/
def write_text_draw (s : Service) (text : List Nat)
    (x y font color flags : Nat) (opcode : Option Nat) (force_update : Bool)
    (old_len : Nat) (old_is_inverted : Bool) : Service × List (List Nat) :=
  let cache_key : CacheKey := ⟨x, y, text, font, color, flags⟩
  let text_len := text.length
  let is_inverted : Bool := (flags &&& 0x80) ≠ 0
  let s1 := { s with line_cache := (y, ⟨cache_key, text_len, is_inverted⟩) :: s.line_cache }
  let chars := translate_to_audscii text
  if is_color_mode s.ddp then
    let op := match opcode with
      | some o => if o = 0 then 0x5F else o
      | none => 0x5F
    let final_color := if color = 0x70 then 0x07 else color
    let clears :=
      if text_len < old_len then draw_rectangle_frames s.ddp 0 y LINE_WIDTH_COLOR 16 0
      else if force_update then draw_rectangle_frames s.ddp 0 y LINE_WIDTH_COLOR 16 0
      else []
    let payload :=
      if op = 0x5F then
        [op, chars.length + 5, font, final_color, x &&& 0xFF, y &&& 0xFF] ++ chars
      else
        [op, chars.length + 7, font, final_color] ++ pack_u16 x ++ pack_u16 y ++ chars
    (s1, clears ++ [payload])
  else
    let abs_y := y + 0x1B
    let protocol_flags := flags &&& 0x7C
    if is_inverted then
      let payload_bg := [0x52, 0x05, 0x03, x, abs_y, LINE_WIDTH_MONO, LINE_HEIGHT_MONO]
      let final_flags := protocol_flags ||| 0x00
      let payload_text := [0x57 + s.ddp.opcode_offset, chars.length + 3, final_flags, 0, 0] ++ chars
      let payload_reset := [0x52, 0x05, 0x00, 0x00, 0x1B, 0x40, 0x30]
      (s1, [payload_bg, payload_text, payload_reset])
    else
      let clear_inv :=
        if old_is_inverted then
          [[0x52, 0x05, 0x02, 0, abs_y, LINE_WIDTH_MONO, LINE_HEIGHT_MONO],
           [0x52, 0x05, 0x00, 0x00, 0x1B, 0x40, 0x30]]
        else []
      let trail_x := x + text_len * CHAR_WIDTH_MONO
      let trail_w := old_len * CHAR_WIDTH_MONO - text_len * CHAR_WIDTH_MONO
      let clear_trail :=
        if text_len < old_len then
          if trail_w > 0 then
            [[0x52, 0x05, 0x02, trail_x, abs_y, trail_w, LINE_HEIGHT_MONO],
             [0x52, 0x05, 0x00, 0x00, 0x1B, 0x40, 0x30]]
          else []
        else []
      let final_flags := protocol_flags ||| 0x02
      let payload := [0x57 + s.ddp.opcode_offset, chars.length + 3, final_flags, x, y] ++ chars
      (s1, clear_inv ++ clear_trail ++ [payload])

/-- `DisService.write_text` (dis_service.py lines 152–218).  The returned
list holds the payloads handed to `send_ddp_frame`, in order; an unchanged
line is suppressed by `line_cache` and returns no payload. -/
def write_text (s : Service) (text : List Nat) (x y font color flags : Nat)
    (opcode : Option Nat) (force_update : Bool) : Service × List (List Nat) :=
  let cache_key : CacheKey := ⟨x, y, text, font, color, flags⟩
  match s.line_cache.lookup y with
  | some old =>
    if cache_key = old.key ∧ force_update = false then (s, [])
    else write_text_draw s text x y font color flags opcode force_update old.text_len old.is_inverted
  | none => write_text_draw s text x y font color flags opcode force_update 0 false

/-- Result of `DisService.claim_nav_screen`. -/
structure ClaimResult where
  ok : Bool
  service : Service
  env : List (List Nat)
  trace : List BusEvent
deriving DecidableEq

def PAYLOAD_CLAIM : List Nat := [0x52, 0x05, 0x82, 0x00, 0x1B, 0x40, 0x30]
def PAYLOAD_OK : List Nat := [0x53, 0x85]
def PAYLOAD_BUSY : List Nat := [0x53, 0x84]
def PAYLOAD_FREE : List Nat := [0x53, 0x05]
def PAYLOAD_READY : List Nat := [0x2E]
def PAYLOAD_CLEAR_CONF : List Nat := [0x2F]

/-- The color branch of `DisService.claim_nav_screen`. -/
def claim_nav_screen_color (s : Service) (env : List (List Nat)) : ClaimResult :=
  let op_win := if s.ddp.dis_mode = DisMode.COLOR_TYPE1 then 0x7A else 0x52
  let payload := [op_win, 0x09, 0x82] ++ pack_u16 0 ++ pack_u16 120 ++
                 pack_u16 220 ++ pack_u16 240
  let r0 := send_ddp_frame s.ddp payload env
  let r1 := recv_and_ack_data r0.engine r0.env
  let tr := r0.trace ++ r1.trace
  match r1.result with
  | some d =>
    if 2 ≤ d.length ∧ d.headD 0 = 0x7B then
      let status := d.tail.headD 0
      if status = 0x85 ∨ status = 0x05 ∨ status = 0x8A then
        ⟨true, { s with ddp := r1.engine, screen_is_active := true }, r1.env, tr⟩
      else if status = 0x04 ∨ status = 0x84 ∨ status = 0x08 ∨ status = 0x88 then
        let r2 := recv_and_ack_data r1.engine r1.env
        match r2.result with
        | some d2 =>
          if 2 ≤ d2.length ∧ (d2.tail.headD 0 = 0x05 ∨ d2.tail.headD 0 = 0x0A) then
            ⟨true, { s with ddp := r2.engine, screen_is_active := true }, r2.env, tr ++ r2.trace⟩
          else ⟨false, { s with ddp := r2.engine }, r2.env, tr ++ r2.trace⟩
        | none => ⟨false, { s with ddp := r2.engine }, r2.env, tr ++ r2.trace⟩
      else if status = 0xC0 then
        ⟨false, { s with ddp := r1.engine }, r1.env, tr⟩
      else
        ⟨true, { s with ddp := r1.engine, screen_is_active := true }, r1.env, tr⟩
    else
      ⟨true, { s with ddp := r1.engine, screen_is_active := true }, r1.env, tr⟩
  | none =>
    ⟨true, { s with ddp := r1.engine, screen_is_active := true }, r1.env, tr⟩

/-- The mono branch of `DisService.claim_nav_screen`; a failed
`send_data_packet` raises `DDPAckTimeoutError`, which the `except DDPError`
clause turns into `return False` with no state change of its own. -/
def claim_nav_screen_mono (s : Service) (env : List (List Nat)) : ClaimResult :=
  let r1 := send_data_packet s.ddp PAYLOAD_CLAIM false env
  if ¬ r1.ok then ⟨false, { s with ddp := r1.engine }, r1.env, r1.trace⟩
  else
    let r2 := recv_and_ack_data r1.engine r1.env
    let tr2 := r1.trace ++ r2.trace
    if payload_is_opt r2.result PAYLOAD_OK then
      ⟨true, { s with ddp := r2.engine, screen_is_active := true }, r2.env, tr2⟩
    else if payload_is_opt r2.result PAYLOAD_BUSY then
      let r3 := recv_and_ack_data r2.engine r2.env
      let tr3 := tr2 ++ r3.trace
      if ¬ payload_is_opt r3.result PAYLOAD_FREE then
        ⟨false, { s with ddp := r3.engine }, r3.env, tr3⟩
      else
        let r4 := recv_and_ack_data r3.engine r3.env
        let tr4 := tr3 ++ r4.trace
        if ¬ payload_is_opt r4.result PAYLOAD_READY then
          ⟨false, { s with ddp := r4.engine }, r4.env, tr4⟩
        else
          let r5 := send_data_packet r4.engine PAYLOAD_CLEAR_CONF false r4.env
          let tr5 := tr4 ++ r5.trace
          if ¬ r5.ok then ⟨false, { s with ddp := r5.engine }, r5.env, tr5⟩
          else
            let r6 := send_data_packet r5.engine PAYLOAD_CLAIM false r5.env
            let tr6 := tr5 ++ r6.trace
            if ¬ r6.ok then ⟨false, { s with ddp := r6.engine }, r6.env, tr6⟩
            else
              let r7 := recv_and_ack_data r6.engine r6.env
              let tr7 := tr6 ++ r7.trace
              if payload_is_opt r7.result PAYLOAD_OK then
                ⟨true, { s with ddp := r7.engine, screen_is_active := true }, r7.env, tr7⟩
              else
                ⟨true, { s with ddp := r7.engine, screen_is_active := true }, r7.env, tr7⟩
    else
      ⟨true, { s with ddp := r2.engine, screen_is_active := true }, r2.env, tr2⟩

/-- `DisService.claim_nav_screen` (dis_service.py lines 71–136). -/
def claim_nav_screen (s : Service) (env : List (List Nat)) : ClaimResult :=
  if s.ddp.state ≠ DDPState.READY then ⟨false, s, env, []⟩
  else if is_color_mode s.ddp then claim_nav_screen_color s env
  else claim_nav_screen_mono s env

/-! ## Trace observations and predicted wire images -/

/-- The frames a trace sends, in order. -/
def sentFrames : List BusEvent → List (List Nat)
  | [] => []
  | BusEvent.send _ d :: r => d :: sentFrames r
  | BusEvent.sleep _ :: r => sentFrames r

/-- The sequence nibble of a data frame: its first byte mod 16 (the type
nibble is a multiple of 16). -/
def seqNib (f : List Nat) : Nat := f.headD 0 % 16

/-- A trace in which every bus send is immediately followed by the mandatory
`CAN_PACING_DELAY_US` pacing sleep (other sleeps may occur freely). -/
inductive Paced : List BusEvent → Prop
  | nil : Paced []
  | sendPair (i : Nat) (d : List Nat) (r : List BusEvent) :
      Paced r → Paced (BusEvent.send i d :: BusEvent.sleep CAN_PACING_DELAY_US :: r)
  | sleepOne (n : Nat) (r : List BusEvent) : Paced r → Paced (BusEvent.sleep n :: r)

/-- The trace that sends each frame of a list through `send_can`. -/
def tracesOf : List (List Nat) → List BusEvent
  | [] => []
  | f :: fs => send_can CAN_ID_SEND f ++ tracesOf fs

/-- Predicted body frames of one block: each 7-byte chunk stamped `0x2x`
with the running sequence number. -/
def wireBodies : Nat → List (List Nat) → List (List Nat)
  | _, [] => []
  | s, c :: cs => ((PKT_TYPE_DATA_BODY + s) :: c) :: wireBodies ((s + 1) % 16) cs

/-- Predicted end frame of a block whose chunk list is `cs` (nonempty),
starting at sequence `s < 16`. -/
def wireEnd (s : Nat) (cs : List (List Nat)) : List Nat :=
  (PKT_TYPE_DATA_END + (s + (cs.length - 1)) % 16) :: cs.getLastD []

/-- Predicted data frames of a run of blocks starting at sequence `s < 16`:
for each block, its body frames then its end frame. -/
def wireBlocks : Nat → List (List Nat) → List (List Nat)
  | _, [] => []
  | s, b :: bs =>
    let cs := chunkList 7 b
    wireBodies s cs.dropLast ++ [wireEnd s cs] ++
      wireBlocks ((s + cs.length) % 16) bs

/-- Predicted full trace of a successful `send_ddp_frame` run of blocks. -/
def wireTrace (mode : DisMode) : Nat → List (List Nat) → List BusEvent
  | _, [] => []
  | s, b :: bs =>
    let cs := chunkList 7 b
    tracesOf (wireBodies s cs.dropLast) ++ send_can CAN_ID_SEND (wireEnd s cs) ++
      (if mode = DisMode.WHITE then [BusEvent.sleep INTER_BLOCK_DELAY_US] else []) ++
      wireTrace mode ((s + cs.length) % 16) bs

/-- The environment delivering exactly the ACK each block's end frame waits
for, starting at sequence `s < 16`. -/
def ackEnv : Nat → List (List Nat) → List (List Nat)
  | _, [] => []
  | s, b :: bs =>
    let k := (chunkList 7 b).length
    [PKT_TYPE_ACK + (s + k) % 16] :: ackEnv ((s + k) % 16) bs

/-- Total number of CAN data frames a block list produces. -/
def blocksChunks (blocks : List (List Nat)) : Nat :=
  (blocks.map (fun b => (chunkList 7 b).length)).sum

/-! ## Basic lemmas -/

theorem chunkGo_nil (n fuel : Nat) : chunkGo n fuel [] = [] := by
  cases fuel <;> rfl

theorem chunkGo_congr (n : Nat) (hn : 0 < n) :
    ∀ (f1 f2 : Nat) (l : List Nat), l.length ≤ f1 → l.length ≤ f2 →
      chunkGo n f1 l = chunkGo n f2 l := by
  intro f1
  induction f1 with
  | zero =>
    intro f2 l h1 h2
    have hl : l = [] := List.length_eq_zero.mp (Nat.le_zero.mp h1)
    subst hl
    simp [chunkGo_nil]
  | succ f ih =>
    intro f2 l h1 h2
    cases l with
    | nil => simp [chunkGo_nil]
    | cons a as =>
      cases f2 with
      | zero => simp at h2
      | succ f2p =>
        show (a :: as).take n :: chunkGo n f ((a :: as).drop n) =
             (a :: as).take n :: chunkGo n f2p ((a :: as).drop n)
        have hd : ((a :: as).drop n).length ≤ as.length := by
          simp only [List.length_drop, List.length_cons]
          omega
        have h1f : ((a :: as).drop n).length ≤ f := by
          simp only [List.length_cons] at h1; omega
        have h2f : ((a :: as).drop n).length ≤ f2p := by
          simp only [List.length_cons] at h2; omega
        rw [ih f2p ((a :: as).drop n) h1f h2f]

theorem chunkList_nil (n : Nat) : chunkList n [] = [] := rfl

theorem chunkList_cons (n : Nat) (hn : 0 < n) (a : Nat) (as : List Nat) :
    chunkList n (a :: as) =
      (a :: as).take n :: chunkList n ((a :: as).drop n) := by
  show chunkGo n (as.length + 1) (a :: as) = _
  show (a :: as).take n :: chunkGo n as.length ((a :: as).drop n) = _
  unfold chunkList
  congr 1
  apply chunkGo_congr n hn
  · simp only [List.length_drop, List.length_cons]; omega
  · exact Nat.le_refl _

theorem chunkList_ne_nil (n : Nat) (hn : 0 < n) (l : List Nat) (hl : l ≠ []) :
    chunkList n l ≠ [] := by
  cases l with
  | nil => exact absurd rfl hl
  | cons a as => rw [chunkList_cons n hn]; simp

theorem mem_chunkList_length_le (n : Nat) (hn : 0 < n) (l b : List Nat)
    (hb : b ∈ chunkList n l) : b.length ≤ n := by
  have H : ∀ k (l b : List Nat), l.length = k → b ∈ chunkList n l → b.length ≤ n := by
    intro k
    induction k using Nat.strong_induction_on with
    | _ k ih =>
      intro l b hlk hb
      cases l with
      | nil => simp [chunkList_nil] at hb
      | cons a as =>
        rw [chunkList_cons n hn] at hb
        rcases List.mem_cons.mp hb with h | h
        · subst h
          simp only [List.length_take]
          exact Nat.min_le_left _ _
        · refine ih ((a :: as).drop n).length ?_ _ _ rfl h
          subst hlk
          simp only [List.length_drop, List.length_cons]
          omega
  exact H l.length l b rfl hb

theorem mem_chunkList_ne_nil (n : Nat) (hn : 0 < n) (l b : List Nat)
    (hb : b ∈ chunkList n l) : b ≠ [] := by
  have H : ∀ k (l b : List Nat), l.length = k → b ∈ chunkList n l → b ≠ [] := by
    intro k
    induction k using Nat.strong_induction_on with
    | _ k ih =>
      intro l b hlk hb
      cases l with
      | nil => simp [chunkList_nil] at hb
      | cons a as =>
        rw [chunkList_cons n hn] at hb
        rcases List.mem_cons.mp hb with h | h
        · subst h
          obtain ⟨m, rfl⟩ := Nat.exists_eq_succ_of_ne_zero (Nat.pos_iff_ne_zero.mp hn)
          simp [List.take_cons]
        · refine ih ((a :: as).drop n).length ?_ _ _ rfl h
          subst hlk
          simp only [List.length_drop, List.length_cons]
          omega
  exact H l.length l b rfl hb

theorem mem_dropLast_chunkList_length (n : Nat) (hn : 0 < n) (l c : List Nat)
    (hc : c ∈ (chunkList n l).dropLast) : c.length = n := by
  have H : ∀ k (l c : List Nat), l.length = k → c ∈ (chunkList n l).dropLast →
      c.length = n := by
    intro k
    induction k using Nat.strong_induction_on with
    | _ k ih =>
      intro l c hlk hc
      cases l with
      | nil => simp [chunkList_nil] at hc
      | cons a as =>
        rw [chunkList_cons n hn] at hc
        rcases hrest : chunkList n ((a :: as).drop n) with _ | ⟨r, rs⟩
        · rw [hrest] at hc; simp at hc
        · rw [hrest] at hc
          rw [List.dropLast_cons₂] at hc
          rcases List.mem_cons.mp hc with h | h
          · subst h
            have hdne : (a :: as).drop n ≠ [] := by
              intro hnil
              rw [hnil, chunkList_nil] at hrest
              exact List.noConfusion hrest
            have hlen : n < (a :: as).length := by
              by_contra hle
              push_neg at hle
              exact hdne (List.drop_eq_nil_of_le hle)
            simp only [List.length_take]
            omega
          · have h2 : c ∈ (chunkList n ((a :: as).drop n)).dropLast := by
              rw [hrest]; exact h
            refine ih ((a :: as).drop n).length ?_ _ _ rfl h2
            subst hlk
            simp only [List.length_drop, List.length_cons]
            omega
  exact H l.length l c rfl hc

theorem set_state_disc_state (e : Engine) :
    (set_state e DDPState.DISCONNECTED).state = DDPState.DISCONNECTED := by
  unfold set_state
  split_ifs with h1 h2 <;> simp_all

theorem sentFrames_append (a b : List BusEvent) :
    sentFrames (a ++ b) = sentFrames a ++ sentFrames b := by
  induction a with
  | nil => rfl
  | cons x r ih => cases x <;> simp [sentFrames, ih]

theorem sentFrames_send_can (i : Nat) (d : List Nat) :
    sentFrames (send_can i d) = [d] := rfl

theorem sentFrames_tracesOf (fs : List (List Nat)) :
    sentFrames (tracesOf fs) = fs := by
  induction fs with
  | nil => rfl
  | cons f fs ih => simp [tracesOf, sentFrames_append, sentFrames_send_can, ih]

theorem paced_append {a b : List BusEvent} (ha : Paced a) (hb : Paced b) :
    Paced (a ++ b) := by
  induction ha with
  | nil => exact hb
  | sendPair i d r _ ih => exact Paced.sendPair i d _ ih
  | sleepOne n r _ ih => exact Paced.sleepOne n _ ih

theorem paced_send_can (i : Nat) (d : List Nat) : Paced (send_can i d) :=
  Paced.sendPair i d [] Paced.nil

/-! ## Lemmas on the incoming-packet handler and the receive loops -/

/-- A frame that cannot close the session: not `A8` and not the red-variant
presence broadcast.  Background handling of such a frame never changes the
session state or the sequence counter. -/
def benign (d : List Nat) : Prop := d ≠ KA_CLOSE ∧ d ≠ KA_RED_PRESENT

instance (d : List Nat) : Decidable (benign d) := by
  unfold benign
  infer_instance

theorem handle_benign_fields (e : Engine) (d : List Nat) (hb : benign d) :
    (handle_incoming_packet e d).engine.state = e.state ∧
    (handle_incoming_packet e d).engine.send_seq_num = e.send_seq_num := by
  obtain ⟨h1, h2⟩ := hb
  unfold handle_incoming_packet
  cases d with
  | nil => exact ⟨rfl, rfl⟩
  | cons b rest =>
    simp only
    split_ifs with hA hc hr hp hB hD <;> simp_all

theorem handle_post_not_disc (e : Engine) (d : List Nat)
    (h : (handle_incoming_packet e d).engine.state ≠ DDPState.DISCONNECTED) :
    (handle_incoming_packet e d).engine.state = e.state ∧
    (handle_incoming_packet e d).engine.send_seq_num = e.send_seq_num := by
  unfold handle_incoming_packet at *
  cases d with
  | nil => exact ⟨rfl, rfl⟩
  | cons b rest =>
    simp only at h ⊢
    split_ifs at h ⊢ with hA hc hr hp hB hD
    all_goals first
      | exact ⟨rfl, rfl⟩
      | exact absurd (set_state_disc_state e) h

theorem handle_sent_replies (e : Engine) (d f : List Nat)
    (hf : f ∈ sentFrames (handle_incoming_packet e d).trace) :
    f = KA_WHITE_ACCEPT ∨ f = KA_RED_ACCEPT := by
  unfold handle_incoming_packet at hf
  cases d with
  | nil => simp [sentFrames] at hf
  | cons b rest =>
    simp only at hf
    split_ifs at hf <;>
      simp_all [sentFrames, sentFrames_send_can]

theorem handle_paced (e : Engine) (d : List Nat) :
    Paced (handle_incoming_packet e d).trace := by
  unfold handle_incoming_packet
  cases d with
  | nil => exact Paced.nil
  | cons b rest =>
    simp only
    split_ifs <;> first
      | exact Paced.nil
      | exact paced_send_can _ _

theorem recv_specific_nil (e : Engine) (expected : List Nat) :
    recv_specific e expected [] = ⟨none, e, [], []⟩ := rfl

theorem recv_specific_match (e : Engine) (expected : List Nat)
    (rest : List (List Nat)) :
    recv_specific e expected (expected :: rest) = ⟨some expected, e, rest, []⟩ := by
  simp [recv_specific]

theorem recv_specific_success_fields (e : Engine) (expected : List Nat)
    (env : List (List Nat)) (x : List Nat)
    (h : (recv_specific e expected env).result = some x) :
    (recv_specific e expected env).engine.state = e.state ∧
    (recv_specific e expected env).engine.send_seq_num = e.send_seq_num := by
  induction env generalizing e with
  | nil => simp [recv_specific_nil] at h
  | cons d rest ih =>
    by_cases hd : d = expected
    · subst hd
      rw [recv_specific_match] at h ⊢
      exact ⟨rfl, rfl⟩
    · rw [recv_specific] at h ⊢
      rw [if_neg hd] at h ⊢
      by_cases hdisc :
          (handle_incoming_packet e d).engine.state = DDPState.DISCONNECTED
      · rw [if_pos hdisc] at h
        simp at h
      · rw [if_neg hdisc] at h ⊢
        simp only at h ⊢
        obtain ⟨hs, hq⟩ := handle_post_not_disc e d hdisc
        obtain ⟨hs2, hq2⟩ := ih (handle_incoming_packet e d).engine h
        exact ⟨hs2.trans hs, hq2.trans hq⟩

theorem recv_specific_benign_fields (e : Engine) (expected : List Nat)
    (env : List (List Nat)) (hb : ∀ d ∈ env, benign d) :
    (recv_specific e expected env).engine.state = e.state ∧
    (recv_specific e expected env).engine.send_seq_num = e.send_seq_num := by
  induction env generalizing e with
  | nil => exact ⟨rfl, rfl⟩
  | cons d rest ih =>
    have hd := hb d (List.mem_cons_self d rest)
    have hrest : ∀ x ∈ rest, benign x := fun x hx => hb x (List.mem_cons_of_mem d hx)
    by_cases hde : d = expected
    · subst hde; rw [recv_specific_match]; exact ⟨rfl, rfl⟩
    · rw [recv_specific, if_neg hde]
      obtain ⟨hs, hq⟩ := handle_benign_fields e d hd
      by_cases hdisc :
          (handle_incoming_packet e d).engine.state = DDPState.DISCONNECTED
      · rw [if_pos hdisc]
        exact ⟨hs, hq⟩
      · rw [if_neg hdisc]
        simp only
        obtain ⟨hs2, hq2⟩ := ih (handle_incoming_packet e d).engine hrest
        exact ⟨hs2.trans hs, hq2.trans hq⟩

theorem recv_specific_sent_replies (e : Engine) (expected : List Nat)
    (env : List (List Nat)) (f : List Nat)
    (hf : f ∈ sentFrames (recv_specific e expected env).trace) :
    f = KA_WHITE_ACCEPT ∨ f = KA_RED_ACCEPT := by
  induction env generalizing e with
  | nil => simp [recv_specific_nil, sentFrames] at hf
  | cons d rest ih =>
    by_cases hde : d = expected
    · subst hde; rw [recv_specific_match] at hf; simp [sentFrames] at hf
    · rw [recv_specific, if_neg hde] at hf
      by_cases hdisc :
          (handle_incoming_packet e d).engine.state = DDPState.DISCONNECTED
      · rw [if_pos hdisc] at hf
        exact handle_sent_replies e d f hf
      · rw [if_neg hdisc] at hf
        simp only at hf
        rw [sentFrames_append] at hf
        rcases List.mem_append.mp hf with h | h
        · exact handle_sent_replies e d f h
        · exact ih (handle_incoming_packet e d).engine h

theorem recv_specific_paced (e : Engine) (expected : List Nat)
    (env : List (List Nat)) : Paced (recv_specific e expected env).trace := by
  induction env generalizing e with
  | nil => exact Paced.nil
  | cons d rest ih =>
    by_cases hde : d = expected
    · subst hde; rw [recv_specific_match]; exact Paced.nil
    · rw [recv_specific, if_neg hde]
      by_cases hdisc :
          (handle_incoming_packet e d).engine.state = DDPState.DISCONNECTED
      · rw [if_pos hdisc]
        exact handle_paced e d
      · rw [if_neg hdisc]
        exact paced_append (handle_paced e d) (ih _)

/-! ## Lemmas on `send_data_packet` -/

theorem recv_specific_single_ne (e : Engine) (expected d : List Nat)
    (hne : d ≠ expected) : (recv_specific e expected [d]).result = none := by
  rw [recv_specific, if_neg hne]
  by_cases hdisc :
      (handle_incoming_packet e d).engine.state = DDPState.DISCONNECTED
  · rw [if_pos hdisc]
  · rw [if_neg hdisc]
    simp [recv_specific_nil]

theorem send_data_packet_body_eq (e : Engine) (data : List Nat)
    (env : List (List Nat)) :
    send_data_packet e data true env =
      ⟨true, { e with send_seq_num := (e.send_seq_num + 1) % 16 }, env,
       send_can CAN_ID_SEND ((PKT_TYPE_DATA_BODY + e.send_seq_num) :: data)⟩ := rfl

theorem send_data_packet_end_ack (e : Engine) (data : List Nat)
    (rest : List (List Nat)) :
    send_data_packet e data false ([expected_ack_byte e.send_seq_num] :: rest) =
      ⟨true, { e with send_seq_num := (e.send_seq_num + 1) % 16 }, rest,
       send_can CAN_ID_SEND ((PKT_TYPE_DATA_END + e.send_seq_num) :: data)⟩ := by
  rw [send_data_packet]
  simp [recv_specific_match, pkt_type_byte]

theorem send_data_packet_end_nil (e : Engine) (data : List Nat) :
    send_data_packet e data false [] =
      ⟨false, { e with send_seq_num := (e.send_seq_num + 1) % 16 }, [],
       send_can CAN_ID_SEND ((PKT_TYPE_DATA_END + e.send_seq_num) :: data)⟩ := by
  rw [send_data_packet]
  simp [recv_specific_nil, pkt_type_byte]

theorem send_data_packet_trace_head (e : Engine) (data : List Nat)
    (body : Bool) (env : List (List Nat)) :
    (send_data_packet e data body env).trace.head? =
      some (BusEvent.send CAN_ID_SEND
        ((pkt_type_byte body + e.send_seq_num) :: data)) := by
  cases body
  · rw [send_data_packet]
    simp [send_can, pkt_type_byte]
  · rw [send_data_packet_body_eq]
    simp [send_can, pkt_type_byte]

theorem send_data_packet_ok_fields (e : Engine) (data : List Nat)
    (env : List (List Nat))
    (h : (send_data_packet e data false env).ok = true) :
    (send_data_packet e data false env).engine.send_seq_num =
      (e.send_seq_num + 1) % 16 ∧
    (send_data_packet e data false env).engine.state = e.state := by
  rw [send_data_packet] at h ⊢
  simp only [Bool.false_eq_true, if_false, Option.isSome_iff_exists] at h ⊢
  obtain ⟨x, hx⟩ := h
  obtain ⟨hs, hq⟩ := recv_specific_success_fields
    { e with send_seq_num := (e.send_seq_num + 1) % 16 }
    [expected_ack_byte e.send_seq_num] env x hx
  exact ⟨hq, hs⟩

theorem send_data_packet_benign_fields (e : Engine) (data : List Nat)
    (env : List (List Nat)) (hb : ∀ d ∈ env, benign d) :
    (send_data_packet e data false env).engine.send_seq_num =
      (e.send_seq_num + 1) % 16 ∧
    (send_data_packet e data false env).engine.state = e.state := by
  rw [send_data_packet]
  simp only [Bool.false_eq_true, if_false]
  obtain ⟨hs, hq⟩ := recv_specific_benign_fields
    { e with send_seq_num := (e.send_seq_num + 1) % 16 }
    [expected_ack_byte e.send_seq_num] env hb
  exact ⟨hq, hs⟩

theorem send_data_packet_single_ack_iff (e : Engine) (data : List Nat) (b : Nat) :
    (send_data_packet e data false [[b]]).ok = true ↔
      b = PKT_TYPE_ACK + (e.send_seq_num + 1) % 16 := by
  constructor
  · intro h
    by_contra hb
    have hne : ([b] : List Nat) ≠ [expected_ack_byte e.send_seq_num] := by
      intro hcontra
      apply hb
      simpa [expected_ack_byte] using hcontra
    have hnone := recv_specific_single_ne
      { e with send_seq_num := (e.send_seq_num + 1) % 16 }
      [expected_ack_byte e.send_seq_num] [b] hne
    rw [send_data_packet] at h
    simp only [Bool.false_eq_true, if_false] at h
    rw [hnone] at h
    simp at h
  · intro h
    subst h
    have hrw : ([PKT_TYPE_ACK + (e.send_seq_num + 1) % 16] : List Nat) =
        [expected_ack_byte e.send_seq_num] := rfl
    rw [show ([[PKT_TYPE_ACK + (e.send_seq_num + 1) % 16]] :
        List (List Nat)) = [expected_ack_byte e.send_seq_num] :: [] from by rw [hrw]]
    rw [send_data_packet_end_ack]

theorem send_data_packet_no_keepalive (e : Engine) (data : List Nat)
    (body : Bool) (env : List (List Nat)) (hs : e.send_seq_num < 16) :
    KA_KEEP_PING ∉ sentFrames (send_data_packet e data body env).trace := by
  intro hmem
  cases body
  · rw [send_data_packet] at hmem
    simp only [Bool.false_eq_true, if_false, sentFrames_append,
      sentFrames_send_can, List.mem_append, List.mem_singleton] at hmem
    rcases hmem with h | h
    · have hhd : pkt_type_byte false + e.send_seq_num = 0xA3 := by
        have := congrArg (fun l => l.headD 0) h
        simpa [KA_KEEP_PING] using this.symm
      simp only [pkt_type_byte, PKT_TYPE_DATA_END, if_false, Bool.false_eq_true] at hhd
      omega
    · rcases recv_specific_sent_replies _ _ _ _ h with h2 | h2 <;>
        simp [KA_KEEP_PING, KA_WHITE_ACCEPT, KA_RED_ACCEPT] at h2
  · rw [send_data_packet_body_eq] at hmem
    simp only [sentFrames_send_can, List.mem_singleton] at hmem
    have hhd : PKT_TYPE_DATA_BODY + e.send_seq_num = 0xA3 := by
      have := congrArg (fun l => l.headD 0) hmem
      simpa [KA_KEEP_PING] using this.symm
    simp only [PKT_TYPE_DATA_BODY] at hhd
    omega

theorem send_data_packet_paced (e : Engine) (data : List Nat) (body : Bool)
    (env : List (List Nat)) :
    Paced (send_data_packet e data body env).trace := by
  cases body
  · rw [send_data_packet]
    simp only [Bool.false_eq_true, if_false]
    exact paced_append (paced_send_can _ _) (recv_specific_paced _ _ _)
  · rw [send_data_packet_body_eq]
    exact paced_send_can _ _

/-! ## The wire image of a successful `send_ddp_frame` -/

theorem send_bodies_spec (chunks : List (List Nat)) :
    ∀ (e : Engine) (env : List (List Nat)), e.send_seq_num < 16 →
      send_bodies e env chunks =
        ({ e with send_seq_num := (e.send_seq_num + chunks.length) % 16 }, env,
         tracesOf (wireBodies e.send_seq_num chunks)) := by
  induction chunks with
  | nil =>
    intro e env hs
    have hmod : e.send_seq_num % 16 = e.send_seq_num := Nat.mod_eq_of_lt hs
    simp [send_bodies, wireBodies, tracesOf, hmod]
  | cons c cs ih =>
    intro e env hs
    have hs1 : ((e.send_seq_num + 1) % 16) < 16 := by omega
    rw [send_bodies, send_data_packet_body_eq]
    simp only
    rw [ih { e with send_seq_num := (e.send_seq_num + 1) % 16 } env hs1]
    have hmod : ((e.send_seq_num + 1) % 16 + cs.length) % 16 =
        (e.send_seq_num + (cs.length + 1)) % 16 := by omega
    simp [wireBodies, tracesOf, hmod]

theorem send_blocks_spec (blocks : List (List Nat)) :
    ∀ (e : Engine) (rest : List (List Nat)), e.send_seq_num < 16 →
      (∀ b ∈ blocks, b ≠ []) →
      send_blocks e (ackEnv e.send_seq_num blocks ++ rest) blocks =
        ⟨true, { e with send_seq_num := (e.send_seq_num + blocksChunks blocks) % 16 },
         rest, wireTrace e.dis_mode e.send_seq_num blocks⟩ := by
  induction blocks with
  | nil =>
    intro e rest hs hb
    have hmod : (e.send_seq_num + blocksChunks []) % 16 = e.send_seq_num := by
      simp [blocksChunks]; omega
    simp [send_blocks, ackEnv, wireTrace, hmod]
  | cons b bs ih =>
    intro e rest hs hb
    have hbne : b ≠ [] := hb b (List.mem_cons_self b bs)
    have h7 : (0 : Nat) < 7 := by norm_num
    have hcs : chunkList 7 b ≠ [] := chunkList_ne_nil 7 h7 b hbne
    have hlen : 0 < (chunkList 7 b).length := List.length_pos.mpr hcs
    have hs2 : (e.send_seq_num + (chunkList 7 b).length) % 16 < 16 := by omega
    have hbs : ∀ x ∈ bs, x ≠ [] := fun x hx => hb x (List.mem_cons_of_mem b hx)
    rw [send_blocks, ackEnv]
    simp only [List.cons_append]
    rw [if_neg hcs]
    have hbodies := send_bodies_spec (chunkList 7 b).dropLast e
      ([PKT_TYPE_ACK + (e.send_seq_num + (chunkList 7 b).length) % 16] ::
        (ackEnv ((e.send_seq_num + (chunkList 7 b).length) % 16) bs ++ rest)) hs
    rw [List.length_dropLast] at hbodies
    simp only [hbodies]
    have hexp : ([PKT_TYPE_ACK + (e.send_seq_num + (chunkList 7 b).length) % 16] :
        List Nat) =
        [expected_ack_byte ((e.send_seq_num + ((chunkList 7 b).length - 1)) % 16)] := by
      simp only [expected_ack_byte, PKT_TYPE_ACK]
      congr 1
      omega
    rw [hexp]
    have hend := send_data_packet_end_ack
      { e with send_seq_num := (e.send_seq_num + ((chunkList 7 b).length - 1)) % 16 }
      ((chunkList 7 b).getLastD [])
      (ackEnv ((e.send_seq_num + (chunkList 7 b).length) % 16) bs ++ rest)
    simp only [hend]
    have hmod2 : ((e.send_seq_num + ((chunkList 7 b).length - 1)) % 16 + 1) % 16 =
        (e.send_seq_num + (chunkList 7 b).length) % 16 := by omega
    simp only [hmod2]
    have hih := ih { e with send_seq_num :=
        (e.send_seq_num + (chunkList 7 b).length) % 16 } rest hs2 hbs
    simp only at hih
    simp only [hih]
    have hmod3 : ((e.send_seq_num + (chunkList 7 b).length) % 16 + blocksChunks bs) % 16 =
        (e.send_seq_num + blocksChunks (b :: bs)) % 16 := by
      simp only [blocksChunks, List.map_cons, List.sum_cons]
      omega
    rw [wireTrace]
    simp [hmod3, wireEnd, PKT_TYPE_DATA_END]

theorem send_ddp_frame_spec (e : Engine) (payload : List Nat)
    (rest : List (List Nat)) (h1 : e.state = DDPState.READY)
    (h2 : e.send_seq_num < 16) (h3 : payload ≠ []) :
    send_ddp_frame e payload
        (ackEnv e.send_seq_num (chunkList MAX_BYTES_PER_BLOCK payload) ++ rest) =
      ⟨true, { e with send_seq_num :=
          (e.send_seq_num + blocksChunks (chunkList MAX_BYTES_PER_BLOCK payload)) % 16 },
       rest, wireTrace e.dis_mode e.send_seq_num
         (chunkList MAX_BYTES_PER_BLOCK payload)⟩ := by
  have h42 : (0 : Nat) < MAX_BYTES_PER_BLOCK := by norm_num [MAX_BYTES_PER_BLOCK]
  have hb : ∀ b ∈ chunkList MAX_BYTES_PER_BLOCK payload, b ≠ [] :=
    fun b hbm => mem_chunkList_ne_nil MAX_BYTES_PER_BLOCK h42 payload b hbm
  rw [send_ddp_frame]
  rw [if_neg (by simp [h1])]
  rw [if_neg h3]
  simp only
  rw [send_blocks_spec (chunkList MAX_BYTES_PER_BLOCK payload) e rest h2 hb]
  simp

theorem sentFrames_wireTrace (mode : DisMode) (blocks : List (List Nat)) :
    ∀ s : Nat, sentFrames (wireTrace mode s blocks) = wireBlocks s blocks := by
  induction blocks with
  | nil => intro s; rfl
  | cons b bs ih =>
    intro s
    rw [wireTrace, wireBlocks]
    simp only [sentFrames_append, sentFrames_tracesOf, sentFrames_send_can]
    have htail :
        sentFrames (if mode = DisMode.WHITE
            then [BusEvent.sleep INTER_BLOCK_DELAY_US] else []) = [] := by
      split_ifs <;> rfl
    rw [htail, ih]
    simp

/-- The data frames of a successful `send_ddp_frame` run are exactly the
predicted `wireBlocks`. -/
theorem send_ddp_frame_sent_frames (e : Engine) (payload : List Nat)
    (rest : List (List Nat)) (h1 : e.state = DDPState.READY)
    (h2 : e.send_seq_num < 16) (h3 : payload ≠ []) :
    sentFrames (send_ddp_frame e payload
        (ackEnv e.send_seq_num (chunkList MAX_BYTES_PER_BLOCK payload) ++ rest)).trace =
      wireBlocks e.send_seq_num (chunkList MAX_BYTES_PER_BLOCK payload) := by
  rw [send_ddp_frame_spec e payload rest h1 h2 h3]
  exact sentFrames_wireTrace e.dis_mode _ e.send_seq_num

/-! ## Sequence nibbles of the wire image -/

theorem wireBodies_map_nib (cs : List (List Nat)) :
    ∀ s : Nat, s < 16 →
      (wireBodies s cs).map seqNib =
        (List.range cs.length).map (fun i => (s + i) % 16) := by
  induction cs with
  | nil => intro s hs; rfl
  | cons c cs ih =>
    intro s hs
    rw [wireBodies]
    simp only [List.map_cons, List.length_cons]
    have h1 : seqNib ((PKT_TYPE_DATA_BODY + s) :: c) = s := by
      simp only [seqNib, PKT_TYPE_DATA_BODY, List.headD_cons]
      omega
    rw [h1, ih ((s + 1) % 16) (by omega), List.range_succ_eq_map]
    simp only [List.map_cons, List.map_map]
    have hfun : ((fun i => (s + i) % 16) ∘ Nat.succ) =
        fun i => ((s + 1) % 16 + i) % 16 := by
      funext i
      simp only [Function.comp_apply]
      omega
    rw [hfun]
    congr 1
    omega

theorem wireBlocks_map_nib (blocks : List (List Nat)) :
    ∀ s : Nat, s < 16 → (∀ b ∈ blocks, b ≠ []) →
      (wireBlocks s blocks).map seqNib =
        (List.range (blocksChunks blocks)).map (fun i => (s + i) % 16) := by
  induction blocks with
  | nil => intro s hs hb; rfl
  | cons b bs ih =>
    intro s hs hb
    have hbne := hb b (List.mem_cons_self b bs)
    have hbs : ∀ x ∈ bs, x ≠ [] := fun x hx => hb x (List.mem_cons_of_mem b hx)
    have hcs : chunkList 7 b ≠ [] := chunkList_ne_nil 7 (by norm_num) b hbne
    have hlen : 0 < (chunkList 7 b).length := List.length_pos.mpr hcs
    rw [wireBlocks]
    simp only [List.map_append, List.map_cons, List.map_nil]
    rw [wireBodies_map_nib _ s hs, List.length_dropLast,
        ih ((s + (chunkList 7 b).length) % 16) (by omega) hbs]
    have hnib : seqNib (wireEnd s (chunkList 7 b)) =
        (s + ((chunkList 7 b).length - 1)) % 16 := by
      simp only [seqNib, wireEnd, PKT_TYPE_DATA_END, List.headD_cons]
      omega
    rw [hnib]
    have hsplit : blocksChunks (b :: bs) =
        (chunkList 7 b).length + blocksChunks bs := by
      simp [blocksChunks]
    rw [hsplit, List.range_add, List.map_append, List.map_map]
    have hL : (chunkList 7 b).length = ((chunkList 7 b).length - 1) + 1 := by omega
    have hhead : (List.range (chunkList 7 b).length).map (fun i => (s + i) % 16) =
        (List.range ((chunkList 7 b).length - 1)).map (fun i => (s + i) % 16) ++
          [(s + ((chunkList 7 b).length - 1)) % 16] := by
      conv =>
        left
        rw [hL]
      rw [List.range_succ, List.map_append]
      simp
    rw [hhead]
    have hfun : ((fun i => (s + i) % 16) ∘
        (HAdd.hAdd (chunkList 7 b).length)) =
        fun i => ((s + (chunkList 7 b).length) % 16 + i) % 16 := by
      funext i
      simp only [Function.comp_apply]
      omega
    rw [hfun]

/-! ## Pacing of all outgoing traffic -/

theorem send_bodies_paced (chunks : List (List Nat)) :
    ∀ (e : Engine) (env : List (List Nat)),
      Paced (send_bodies e env chunks).2.2 := by
  induction chunks with
  | nil => intro e env; exact Paced.nil
  | cons c cs ih =>
    intro e env
    rw [send_bodies]
    exact paced_append (send_data_packet_paced _ _ _ _) (ih _ _)

theorem send_blocks_paced (blocks : List (List Nat)) :
    ∀ (e : Engine) (env : List (List Nat)),
      Paced (send_blocks e env blocks).trace := by
  induction blocks with
  | nil => intro e env; exact Paced.nil
  | cons b bs ih =>
    intro e env
    rw [send_blocks]
    simp only
    split_ifs <;>
      first
        | exact ih _ _
        | (simp only [List.append_assoc]
           repeat
             first
               | exact ih _ _
               | exact send_bodies_paced _ _ _
               | exact send_data_packet_paced _ _ _ _
               | exact Paced.sleepOne _ _ Paced.nil
               | exact Paced.nil
               | refine paced_append ?_ ?_)

theorem send_ack_paced (n : Nat) : Paced (send_ack n) := paced_send_can _ _

theorem send_ddp_frame_paced (e : Engine) (payload : List Nat)
    (env : List (List Nat)) : Paced (send_ddp_frame e payload env).trace := by
  rw [send_ddp_frame]
  dsimp only
  split_ifs <;>
    first
      | exact Paced.nil
      | exact send_blocks_paced _ _ _

theorem recv_and_ack_data_paced (e : Engine) :
    ∀ env : List (List Nat), Paced (recv_and_ack_data e env).trace := by
  intro env
  induction env generalizing e with
  | nil => exact Paced.nil
  | cons d rest ih =>
    rw [recv_and_ack_data]
    dsimp only
    split_ifs <;>
      first
        | exact ih _
        | exact handle_paced e d
        | exact paced_append (handle_paced e d) (ih _)
        | exact paced_append (handle_paced e d) (send_ack_paced _)

theorem poll_bus_events_paced (e : Engine) (incoming : Option (List Nat)) :
    Paced (poll_bus_events e incoming).2 := by
  unfold poll_bus_events
  split_ifs with h1
  · exact Paced.nil
  · cases incoming with
    | none => exact Paced.nil
    | some data =>
      dsimp only
      split_ifs <;>
        · simp only [List.append_assoc]
          repeat
            first
              | exact Paced.nil
              | exact handle_paced e data
              | exact send_ack_paced _
              | exact paced_send_can _ _
              | refine paced_append ?_ ?_

/-! ## Sample states for witnesses and counterexamples -/

/-- A READY White-DIS engine with a fresh sequence counter. -/
def sampleReady : Engine := ⟨DDPState.READY, DisMode.WHITE, true, 0, none, 0⟩

/-- A READY White-DIS engine whose sequence counter is 5. -/
def sampleReady5 : Engine := ⟨DDPState.READY, DisMode.WHITE, true, 5, none, 0⟩

/-- A disconnected engine. -/
def sampleDisc : Engine := ⟨DDPState.DISCONNECTED, DisMode.UNKNOWN, false, 0, none, 0⟩

/-- A PAUSED engine (cluster owns the screen), sequence counter 3. -/
def samplePaused : Engine := ⟨DDPState.PAUSED, DisMode.WHITE, true, 3, none, 0⟩

/-- A service over `sampleReady` with empty caches. -/
def sampleService : Service := ⟨sampleReady, false, []⟩

/-- A 60-byte application payload (spec §8 scenario 5). -/
def demo60 : List Nat := List.replicate 60 0x41

/-! ## Claim theorems -/

/-- C2: in every session state other than READY, `send_ddp_frame` transmits
nothing on the bus and returns `False`; READY is the only state in which
application draw frames are sent. -/
theorem ddp_c2_not_ready_no_send (e : Engine) (payload : List Nat)
    (env : List (List Nat)) (h : e.state ≠ DDPState.READY) :
    send_ddp_frame e payload env = ⟨false, e, env, []⟩ := by
  rw [send_ddp_frame, if_pos h]

/-- C2 witness: a disconnected engine sends nothing and reports failure. -/
theorem ddp_c2_witness :
    sampleDisc.state ≠ DDPState.READY ∧
    send_ddp_frame sampleDisc [0x39] [] = ⟨false, sampleDisc, [], []⟩ :=
  ⟨by decide, ddp_c2_not_ready_no_send sampleDisc [0x39] [] (by decide)⟩

/-- C5 counterexample: with no ACK arriving, `send_data_packet` fails after
its single 500 ms wait having emitted no `A3` keep-alive at all — there is no
ten-round breathing loop in the code. -/
theorem ddp_c5_cex_no_breathing :
    (send_data_packet sampleReady [0x39] false []).ok = false ∧
    (sentFrames (send_data_packet sampleReady [0x39] false []).trace).countP
        (fun f => f == KA_KEEP_PING) = 0 ∧
    sentFrames (send_data_packet sampleReady [0x39] false []).trace =
      [[0x10, 0x39]] := by decide

/-- C5 amended: when the awaited ACK does not arrive, `send_data_packet` fails
after its single `_recv_specific` wait; during that wait the engine never
emits an `A3` keep-alive (it only answers cluster pings with `A1` replies),
and an environment delivering nothing makes the send fail at once. -/
theorem ddp_c5_amended_single_wait :
    (∀ (e : Engine) (data : List Nat) (body : Bool) (env : List (List Nat)),
      e.send_seq_num < 16 →
      KA_KEEP_PING ∉ sentFrames (send_data_packet e data body env).trace) ∧
    (∀ (e : Engine) (data : List Nat),
      (send_data_packet e data false []).ok = false) ∧
    (∀ (e : Engine) (expected : List Nat) (env : List (List Nat)) (f : List Nat),
      f ∈ sentFrames (recv_specific e expected env).trace →
      f = KA_WHITE_ACCEPT ∨ f = KA_RED_ACCEPT) := by
  refine ⟨send_data_packet_no_keepalive, ?_, recv_specific_sent_replies⟩
  intro e data
  rw [send_data_packet_end_nil]

/-- C5 witness: even with a cluster ping arriving during the wait, no `A3`
is emitted; and a silent environment fails the send. -/
theorem ddp_c5_witness :
    KA_KEEP_PING ∉
      sentFrames (send_data_packet sampleReady [0x39] false [[0xA3]]).trace ∧
    (send_data_packet sampleReady [0x07] false []).ok = false :=
  ⟨ddp_c5_amended_single_wait.1 sampleReady [0x39] false [[0xA3]] (by decide),
   ddp_c5_amended_single_wait.2.1 sampleReady [0x07]⟩

/-- C7 counterexample: the character U+0130 (codepoint 304 ≥ 256) translates
to glyph `0x30` (the table entry at 304 mod 256 = 0x30), not to the space
glyph `0x20` the claim requires. -/
theorem ddp_c7_cex_high_codepoint :
    translate_to_audscii [0x130] = [0x30] ∧ (0x30 : Nat) ≠ 0x20 := by decide

/-- C7 amended: translation maps each character through the fixed 256-entry
table, indexing by the codepoint reduced modulo 256; codepoints at or above
256 wrap around instead of becoming space. -/
theorem ddp_c7_amended_translation :
    audscii_trans.length = 256 ∧
    (∀ text : List Nat, (translate_to_audscii text).length = text.length) ∧
    (∀ c : Nat, c < 256 → translate_to_audscii [c] = [audscii_trans.getD c 0]) ∧
    (∀ c : Nat, translate_to_audscii [c] = translate_to_audscii [c % 256]) := by
  refine ⟨by decide, ?_, ?_, ?_⟩
  · intro text
    simp [translate_to_audscii]
  · intro c hc
    simp [translate_to_audscii, Nat.mod_eq_of_lt hc]
  · intro c
    have hmm : c % 256 % 256 = c % 256 := Nat.mod_mod_of_dvd c dvd_rfl
    simp [translate_to_audscii, hmm]

/-- C7 witness: an in-range character uses its table entry; codepoint 0x141
translates exactly as its wrap-around 0x41. -/
theorem ddp_c7_witness :
    translate_to_audscii [65] = [audscii_trans.getD 65 0] ∧
    translate_to_audscii [0x141] = translate_to_audscii [0x41] := by
  refine ⟨ddp_c7_amended_translation.2.2.1 65 (by decide), ?_⟩
  have h := ddp_c7_amended_translation.2.2.2 0x141
  simpa using h

/-- C8 counterexample: the pacing sleep after a transmission is 2000 µs
(`CAN_PACING_DELAY_S = 0.002`), not the 5 ms the claim states. -/
theorem ddp_c8_cex_pacing_value :
    send_can 0x6C0 [0xA3] =
      [BusEvent.send 0x6C0 [0xA3], BusEvent.sleep 2000] ∧
    (2000 : Nat) ≠ 5000 := ⟨rfl, by decide⟩

/-- C8 amended: every CAN transmission on the outgoing identifier is followed
by a pacing sleep of `CAN_PACING_DELAY_US` = 2 ms (there is no `T3`
negotiation in the code): every trace the engine produces is `Paced`. -/
theorem ddp_c8_amended_pacing :
    CAN_PACING_DELAY_US = 2000 ∧
    (∀ (i : Nat) (d : List Nat),
      send_can i d = [BusEvent.send i d, BusEvent.sleep CAN_PACING_DELAY_US]) ∧
    (∀ (e : Engine) (data : List Nat) (body : Bool) (env : List (List Nat)),
      Paced (send_data_packet e data body env).trace) ∧
    (∀ (e : Engine) (payload : List Nat) (env : List (List Nat)),
      Paced (send_ddp_frame e payload env).trace) ∧
    (∀ (e : Engine) (incoming : Option (List Nat)),
      Paced (poll_bus_events e incoming).2) ∧
    (∀ (e : Engine) (env : List (List Nat)),
      Paced (recv_and_ack_data e env).trace) :=
  ⟨rfl, fun _ _ => rfl, send_data_packet_paced, send_ddp_frame_paced,
   poll_bus_events_paced, recv_and_ack_data_paced⟩

/-- C8 witness: a concrete `send_ddp_frame` run produces a paced trace. -/
theorem ddp_c8_witness :
    Paced (send_ddp_frame sampleReady [0x39] [[0xB1]]).trace :=
  ddp_c8_amended_pacing.2.2.2.1 sampleReady [0x39] [[0xB1]]

/-- C10 counterexample: when the cluster sends `A8` during the ACK wait, the
failed `send_data_packet` leaves the counter reset to 0 (not advanced to
(5+1) mod 16 = 6) and the session state changed to DISCONNECTED — the claim's
unconditional statement fails. -/
theorem ddp_c10_cex_close_during_wait :
    (send_data_packet sampleReady5 [0x39] false [[0xA8]]).ok = false ∧
    (send_data_packet sampleReady5 [0x39] false [[0xA8]]).engine.send_seq_num = 0 ∧
    ((5 + 1) % 16 : Nat) = 6 ∧
    (send_data_packet sampleReady5 [0x39] false [[0xA8]]).engine.state =
      DDPState.DISCONNECTED ∧
    sampleReady5.state = DDPState.READY := by decide

/-- C10 amended: the counter is advanced before the ACK wait, and
`send_data_packet` performs no state transition of its own: whenever no
session-closing frame (`A8` or the red-presence broadcast) arrives during the
wait, the sequence counter ends at (seq+1) mod 16 and the session state is
unchanged — whether or not the send failed with an ACK timeout; only
background handling of a session-closing frame can change them. -/
theorem ddp_c10_amended_seq_and_state (e : Engine) (data : List Nat)
    (env : List (List Nat)) (hb : ∀ d ∈ env, benign d) :
    (send_data_packet e data false env).engine.send_seq_num =
      (e.send_seq_num + 1) % 16 ∧
    (send_data_packet e data false env).engine.state = e.state :=
  send_data_packet_benign_fields e data env hb

/-- C10 witness: a failed send (stray ACK only, then timeout) leaves the
state READY and the counter advanced from 5 to 6. -/
theorem ddp_c10_witness :
    (send_data_packet sampleReady5 [0x39] false [[0xB0]]).engine.send_seq_num = 6 ∧
    (send_data_packet sampleReady5 [0x39] false [[0xB0]]).engine.state =
      DDPState.READY := by
  have h := ddp_c10_amended_seq_and_state sampleReady5 [0x39] [[0xB0]] (by decide)
  exact ⟨by simpa using h.1, h.2.trans rfl⟩

/-- C1: every transmitted data packet is stamped with the current sequence
counter, which advances by exactly one mod 16 per packet (body packets
unconditionally; end packets whenever the send succeeds); an end frame sent at
sequence `s` is confirmed exactly by the ACK byte `0xB0 + ((s+1) mod 16)`; and
on a fully ACKed `send_ddp_frame` run the sequence nibbles observed on the
wire are the gapless, repeat-free cyclic run `s, s+1, …` mod 16. -/
theorem ddp_c1_seq_counter_and_ack :
    (∀ (e : Engine) (data : List Nat) (body : Bool) (env : List (List Nat)),
      (send_data_packet e data body env).trace.head? =
        some (BusEvent.send CAN_ID_SEND
          ((pkt_type_byte body + e.send_seq_num) :: data))) ∧
    (∀ (e : Engine) (data : List Nat) (env : List (List Nat)),
      (send_data_packet e data true env).engine.send_seq_num =
        (e.send_seq_num + 1) % 16) ∧
    (∀ (e : Engine) (data : List Nat) (env : List (List Nat)),
      (send_data_packet e data false env).ok = true →
      (send_data_packet e data false env).engine.send_seq_num =
        (e.send_seq_num + 1) % 16) ∧
    (∀ (e : Engine) (data : List Nat) (b : Nat),
      (send_data_packet e data false [[b]]).ok = true ↔
        b = PKT_TYPE_ACK + (e.send_seq_num + 1) % 16) ∧
    (∀ (e : Engine) (payload : List Nat) (rest : List (List Nat)),
      e.state = DDPState.READY → e.send_seq_num < 16 → payload ≠ [] →
      (sentFrames (send_ddp_frame e payload
          (ackEnv e.send_seq_num (chunkList MAX_BYTES_PER_BLOCK payload) ++
            rest)).trace).map seqNib =
        (List.range (blocksChunks (chunkList MAX_BYTES_PER_BLOCK payload))).map
          (fun i => (e.send_seq_num + i) % 16)) := by
  refine ⟨send_data_packet_trace_head, ?_, ?_,
    send_data_packet_single_ack_iff, ?_⟩
  · intro e data env
    rw [send_data_packet_body_eq]
  · intro e data env h
    exact (send_data_packet_ok_fields e data env h).1
  · intro e payload rest h1 h2 h3
    rw [send_ddp_frame_sent_frames e payload rest h1 h2 h3]
    exact wireBlocks_map_nib _ e.send_seq_num h2
      (fun b hb => mem_chunkList_ne_nil MAX_BYTES_PER_BLOCK
        (by norm_num [MAX_BYTES_PER_BLOCK]) payload b hb)

/-- C1 witness: the fully ACKed 60-byte run starting at sequence 0 shows the
wire nibbles 0,1,…,8. -/
theorem ddp_c1_witness :
    (sentFrames (send_ddp_frame sampleReady demo60
        (ackEnv sampleReady.send_seq_num
          (chunkList MAX_BYTES_PER_BLOCK demo60) ++ [])).trace).map seqNib =
      (List.range (blocksChunks (chunkList MAX_BYTES_PER_BLOCK demo60))).map
        (fun i => (sampleReady.send_seq_num + i) % 16) :=
  ddp_c1_seq_counter_and_ack.2.2.2.2 sampleReady demo60 [] rfl (by decide)
    (by decide)

/-- C3 counterexample: the 60-byte payload produces 9 CAN data frames
(5 body + 1 end, then 2 body + 1 end), not the 10 frames (6 body + 1 end,
then 2 body + 1 end) the claim states; the first block's body-frame count is
7 in total, not 8. -/
theorem ddp_c3_cex_sixty_byte_payload :
    (sentFrames (send_ddp_frame sampleReady demo60 [[0xB6], [0xB9]]).trace).length
        = 9 ∧
    ¬ ((sentFrames (send_ddp_frame sampleReady demo60
        [[0xB6], [0xB9]]).trace).length = 10) ∧
    (sentFrames (send_ddp_frame sampleReady demo60 [[0xB6], [0xB9]]).trace).countP
        (fun f => f.headD 0 &&& 0xF0 == 0x20) = 7 ∧
    ¬ ((sentFrames (send_ddp_frame sampleReady demo60
        [[0xB6], [0xB9]]).trace).countP
        (fun f => f.headD 0 &&& 0xF0 == 0x20) = 8) := by decide

/-- C3 amended: a payload is split into blocks of at most 42 bytes; each
block of chunk count k is emitted as k−1 body frames of exactly 7 payload
bytes (type 0x2x) followed by one end frame carrying the block's last chunk —
the remainder, or a full 7 bytes when 7 divides the block length.  A 60-byte
payload yields a first block of 5 body frames plus 1 end frame of 7 bytes
(42 bytes) and a second block of 2 body frames plus 1 end frame of 4 bytes
(18 bytes). -/
theorem ddp_c3_amended_block_structure :
    (∀ (e : Engine) (payload : List Nat) (rest : List (List Nat)),
      e.state = DDPState.READY → e.send_seq_num < 16 → payload ≠ [] →
      sentFrames (send_ddp_frame e payload
          (ackEnv e.send_seq_num (chunkList MAX_BYTES_PER_BLOCK payload) ++
            rest)).trace =
        wireBlocks e.send_seq_num (chunkList MAX_BYTES_PER_BLOCK payload)) ∧
    (∀ payload b : List Nat, b ∈ chunkList MAX_BYTES_PER_BLOCK payload →
      b.length ≤ MAX_BYTES_PER_BLOCK) ∧
    (∀ block c : List Nat, c ∈ (chunkList 7 block).dropLast → c.length = 7) ∧
    (wireBlocks 0 (chunkList MAX_BYTES_PER_BLOCK demo60)).map
        (fun f => f.headD 0) =
      [0x20, 0x21, 0x22, 0x23, 0x24, 0x15, 0x26, 0x27, 0x18] ∧
    (wireBlocks 0 (chunkList MAX_BYTES_PER_BLOCK demo60)).map List.length =
      [8, 8, 8, 8, 8, 8, 8, 8, 5] := by
  refine ⟨send_ddp_frame_sent_frames, ?_, ?_, by decide, by decide⟩
  · intro payload b hb
    exact mem_chunkList_length_le MAX_BYTES_PER_BLOCK
      (by norm_num [MAX_BYTES_PER_BLOCK]) payload b hb
  · intro block c hc
    exact mem_dropLast_chunkList_length 7 (by norm_num) block c hc

/-- C3 witness: the fully ACKed 60-byte run emits exactly the predicted
frames. -/
theorem ddp_c3_witness :
    sentFrames (send_ddp_frame sampleReady demo60
        (ackEnv sampleReady.send_seq_num
          (chunkList MAX_BYTES_PER_BLOCK demo60) ++ [])).trace =
      wireBlocks sampleReady.send_seq_num
        (chunkList MAX_BYTES_PER_BLOCK demo60) :=
  ddp_c3_amended_block_structure.1 sampleReady demo60 [] rfl (by decide)
    (by decide)

/-! ## Pre-emption handling (poll_bus_events) -/

theorem set_state_state (e : Engine) (ns : DDPState) :
    (set_state e ns).state = ns := by
  unfold set_state
  split_ifs with h1 h2 <;> simp_all

theorem set_state_seq (e : Engine) (ns : DDPState)
    (h : ns ≠ DDPState.DISCONNECTED) :
    (set_state e ns).send_seq_num = e.send_seq_num := by
  unfold set_state
  split_ifs <;> simp_all

/-- A data-typed first byte makes `_handle_incoming_packet` return the packet
to the caller unhandled. -/
theorem handle_data_frame (e : Engine) (b : Nat) (p : List Nat)
    (hdata : b &&& 0xF0 = 0x00 ∨ b &&& 0xF0 = 0x10 ∨ b &&& 0xF0 = 0x20) :
    handle_incoming_packet e (b :: p) = ⟨false, e, []⟩ := by
  unfold handle_incoming_packet
  rcases hdata with h | h | h <;>
    simp [PKT_TYPE_MASK, PKT_TYPE_ACK, PKT_TYPE_DATA_END, PKT_TYPE_DATA_BODY, h]

theorem free_not_busy (p : List Nat) (h : is_free_status p = true) :
    is_busy_status p = false := by
  unfold is_free_status at h
  rcases Bool.or_eq_true_iff.mp h with h1 | h1 <;>
    · have := eq_of_beq h1
      subst this
      decide

/-- C6: a busy status payload received while not PAUSED transitions the
session to PAUSED and emits an `A3` keep-alive; a free status leaves a PAUSED
session PAUSED; and a `2E` re-init request while PAUSED is answered with a
`2F` end frame (advancing the sequence counter) and transitions to READY. -/
theorem ddp_c6_pause_and_resume (e : Engine) (b : Nat) (p : List Nat)
    (hne : e.state ≠ DDPState.DISCONNECTED)
    (hdata : b &&& 0xF0 = 0x00 ∨ b &&& 0xF0 = 0x10 ∨ b &&& 0xF0 = 0x20) :
    (is_busy_status p = true → e.state ≠ DDPState.PAUSED →
      (poll_bus_events e (some (b :: p))).1.state = DDPState.PAUSED ∧
      KA_KEEP_PING ∈ sentFrames (poll_bus_events e (some (b :: p))).2) ∧
    (is_free_status p = true → e.state = DDPState.PAUSED →
      (poll_bus_events e (some (b :: p))).1.state = DDPState.PAUSED) ∧
    (e.state = DDPState.PAUSED →
      (poll_bus_events e (some (b :: CMD_REINIT_REQ))).1.state =
        DDPState.READY ∧
      ((PKT_TYPE_DATA_END + e.send_seq_num) :: CMD_REINIT_CONF) ∈
        sentFrames (poll_bus_events e (some (b :: CMD_REINIT_REQ))).2 ∧
      (poll_bus_events e (some (b :: CMD_REINIT_REQ))).1.send_seq_num =
        (e.send_seq_num + 1) % 16) := by
  refine ⟨?_, ?_, ?_⟩
  · intro hbusy hpause
    unfold poll_bus_events
    rw [if_neg hne]
    dsimp only
    rw [if_neg (List.cons_ne_nil b p)]
    rw [handle_data_frame e b p hdata]
    dsimp only
    simp only [List.headD_cons, List.tail_cons, hbusy, if_true]
    rw [if_pos hpause]
    refine ⟨set_state_state e DDPState.PAUSED, ?_⟩
    simp [sentFrames_append, sentFrames_send_can]
  · intro hfree hpaused
    unfold poll_bus_events
    rw [if_neg hne]
    dsimp only
    rw [if_neg (List.cons_ne_nil b p)]
    rw [handle_data_frame e b p hdata]
    dsimp only
    simp only [List.headD_cons, List.tail_cons, free_not_busy p hfree, hfree,
      Bool.false_eq_true, if_false, if_true]
    exact hpaused
  · intro hpaused
    unfold poll_bus_events
    rw [if_neg hne]
    dsimp only
    rw [if_neg (List.cons_ne_nil b CMD_REINIT_REQ)]
    rw [handle_data_frame e b CMD_REINIT_REQ hdata]
    dsimp only
    simp only [List.headD_cons, List.tail_cons,
      show is_busy_status CMD_REINIT_REQ = false from by decide,
      show is_free_status CMD_REINIT_REQ = false from by decide,
      Bool.false_eq_true, if_false]
    rw [if_pos trivial]
    refine ⟨set_state_state _ DDPState.READY, ?_, ?_⟩
    · simp [sentFrames_append, sentFrames_send_can]
    · rw [set_state_seq _ DDPState.READY (by decide)]

/-- C6 witness: a concrete busy status pauses the session and pings, and a
concrete `2E` request while PAUSED resumes to READY. -/
theorem ddp_c6_witness :
    (poll_bus_events sampleReady (some (0x10 :: STAT_BUSY_HALF))).1.state =
      DDPState.PAUSED ∧
    KA_KEEP_PING ∈
      sentFrames (poll_bus_events sampleReady (some (0x10 :: STAT_BUSY_HALF))).2 ∧
    (poll_bus_events samplePaused (some (0x13 :: CMD_REINIT_REQ))).1.state =
      DDPState.READY := by
  have h1 := (ddp_c6_pause_and_resume sampleReady 0x10 STAT_BUSY_HALF
    (by decide) (by decide)).1 (by decide) (by decide)
  have h2 := (ddp_c6_pause_and_resume samplePaused 0x13 []
    (by decide) (by decide)).2.2 rfl
  exact ⟨h1.1, h1.2, h2.1⟩

/-- C9: issuing the same `draw_text` twice with unchanged
(x, y, text, flags) and unchanged font and color (mono mode, non-inverted
flags, no prior entry for the row) emits exactly one text frame: the first
call hands exactly the one `0x57` text payload to the DDP layer, and the
second call is suppressed by `line_cache` and emits nothing. -/
theorem ddp_c9_line_cache_suppression (s : Service) (text : List Nat)
    (x y font color flags : Nat)
    (hy : s.line_cache.lookup y = none)
    (hinv : flags &&& 0x80 = 0)
    (hmono : is_color_mode s.ddp = false) :
    (write_text s text x y font color flags none false).2 =
      [[0x57 + s.ddp.opcode_offset, (translate_to_audscii text).length + 3,
        (flags &&& 0x7C) ||| 0x02, x, y] ++ translate_to_audscii text] ∧
    (write_text (write_text s text x y font color flags none false).1
        text x y font color flags none false).2 = [] ∧
    (write_text (write_text s text x y font color flags none false).1
        text x y font color flags none false).1 =
      (write_text s text x y font color flags none false).1 := by
  have h1 : write_text s text x y font color flags none false =
      ({ s with line_cache := (y, ⟨⟨x, y, text, font, color, flags⟩,
          text.length, false⟩) :: s.line_cache },
       [[0x57 + s.ddp.opcode_offset, (translate_to_audscii text).length + 3,
         (flags &&& 0x7C) ||| 0x02, x, y] ++ translate_to_audscii text]) := by
    unfold write_text
    rw [hy]
    unfold write_text_draw
    simp [hmono, hinv]
  rw [h1]
  refine ⟨rfl, ?_, ?_⟩ <;>
    · unfold write_text
      simp [List.lookup]

/-- C9 witness: writing the same two-character text twice emits one frame
then nothing. -/
theorem ddp_c9_witness :
    (write_text sampleService [0x48, 0x69] 0 1 0x28 0x07 0x06 none false).2 =
      [[0x57 + sampleService.ddp.opcode_offset,
        (translate_to_audscii [0x48, 0x69]).length + 3,
        (0x06 &&& 0x7C) ||| 0x02, 0, 1] ++ translate_to_audscii [0x48, 0x69]] ∧
    (write_text (write_text sampleService [0x48, 0x69] 0 1 0x28 0x07 0x06
        none false).1 [0x48, 0x69] 0 1 0x28 0x07 0x06 none false).2 = [] := by
  have h := ddp_c9_line_cache_suppression sampleService [0x48, 0x69] 0 1 0x28
    0x07 0x06 rfl (by decide) (by decide)
  exact ⟨h.1, h.2.1⟩

/-- C4 counterexample: in `DisService.claim_nav_screen` (mono path) an end
frame is transmitted, no ACK is observed (the environment delivers nothing),
yet the session state stays READY instead of transitioning to DISCONNECTED;
the method merely returns `False`. -/
theorem ddp_c4_cex_claim_timeout :
    (claim_nav_screen sampleService []).ok = false ∧
    (claim_nav_screen sampleService []).service.ddp.state = DDPState.READY ∧
    sentFrames (claim_nav_screen sampleService []).trace =
      [(PKT_TYPE_DATA_END + 0) :: PAYLOAD_CLAIM] ∧
    (claim_nav_screen sampleService []).env = [] := by decide

/-- C4 amended: on the `send_ddp_frame` path an un-ACKed end frame does
escalate to DISCONNECTED, but an end frame sent directly through
`send_data_packet` during the mono screen-claim handshake does not: when the
ACK never arrives, `claim_nav_screen` returns `False` with the session state
unchanged (only the sequence counter advanced). -/
theorem ddp_c4_amended_ack_or_disconnect :
    (∀ (e : Engine) (payload : List Nat) (env : List (List Nat)),
      e.state = DDPState.READY →
      (send_ddp_frame e payload env).ok = false →
      (send_ddp_frame e payload env).engine.state = DDPState.DISCONNECTED) ∧
    (∀ s : Service, s.ddp.state = DDPState.READY →
      is_color_mode s.ddp = false →
      claim_nav_screen s [] =
        ⟨false,
         { s with ddp :=
            { s.ddp with send_seq_num := (s.ddp.send_seq_num + 1) % 16 } },
         [], send_can CAN_ID_SEND
           ((PKT_TYPE_DATA_END + s.ddp.send_seq_num) :: PAYLOAD_CLAIM)⟩) := by
  constructor
  · intro e payload env h1 h2
    rw [send_ddp_frame] at h2 ⊢
    rw [if_neg (by simp [h1])] at h2 ⊢
    by_cases hp : payload = []
    · rw [if_pos hp] at h2
      simp at h2
    · rw [if_neg hp] at h2 ⊢
      dsimp only at h2 ⊢
      split_ifs at h2 ⊢ with hok
      · exact absurd h2 (by simp [hok])
      · exact set_state_state _ _
  · intro s h1 h2
    rw [claim_nav_screen]
    rw [if_neg (by simp [h1])]
    rw [h2]
    simp only [Bool.false_eq_true, if_false]
    unfold claim_nav_screen_mono
    rw [send_data_packet_end_nil]
    simp

/-- C4 witness: the concrete silent-bus claim attempt returns `False`, keeps
READY and has only advanced the sequence counter. -/
theorem ddp_c4_witness :
    claim_nav_screen sampleService [] =
      ⟨false,
       { sampleService with
         ddp := { sampleService.ddp with
           send_seq_num := (sampleService.ddp.send_seq_num + 1) % 16 } },
       [], send_can CAN_ID_SEND
         ((PKT_TYPE_DATA_END + sampleService.ddp.send_seq_num) ::
           PAYLOAD_CLAIM)⟩ :=
  ddp_c4_amended_ack_or_disconnect.2 sampleService rfl (by decide)

end RNSE
